import Mathlib

/-!
Shallow embedding of the input-pacing core of the rac-clicker repository
(src/RAC/src/input), together with theorems settling the specification
claims about it.

Modelling conventions:
- Durations are natural numbers of microseconds (the source only ever
  builds them from microsecond counts in the embedded code paths).
- Rust u64 saturating arithmetic is modelled on Nat with an explicit cap
  at 2^64 - 1 where the source saturates.
- Randomness (rand::rng calls) is modelled by passing the drawn values in
  explicitly; range constraints of random_range become hypotheses.
- Rust f64 settings fields are modelled as rationals; the claims settled
  here depend only on equality tests between them, not on rounding.
- Atomics, mutexes and the condition variable are modelled by plain state
  fields plus an explicit count of notifications issued by an operation,
  executions being interleaving-free as the claims assume.
-/

/-- A duration in microseconds. -/
abbrev Micros := Nat

/-- Largest value of a Rust u64. -/
def u64max : Nat := 2 ^ 64 - 1

/-- Rust u64 saturating_add_signed: add a signed value, clamping the result
into the u64 range. Int.toNat already clamps below at zero. -/
def u64_saturating_add_signed (a : Nat) (j : Int) : Nat :=
  min ((a + j).toNat) u64max

/-- Rust cast of a (nonnegative) float to u64, modelled on rationals:
truncation toward zero, clamped into the u64 range. -/
def rat_as_u64 (q : ℚ) : Nat :=
  min q.floor.toNat u64max

/-- Case-insensitive comparison key used by the process-table scan. The
source compares name.to_lowercase() with target.to_lowercase(). -/
def lower_chars (s : String) : List Char := s.data.map Char.toLower

/-! ## DelayProvider (src/RAC/src/input/delay_provider.rs) -/

/-- State of DelayProvider. delay_buffer models the Vec of 512 Durations,
current_index the ring index, burst_counter the u8 counter. -/
structure DelayProvider where
  delay_buffer : List Micros
  current_index : Nat
  delay_range_min : ℚ
  delay_range_max : ℚ
  random_deviation_min : Int
  random_deviation_max : Int
  burst_mode : Bool
  burst_counter : Nat
deriving DecidableEq

/-- initialize_delay_buffer: every one of the 512 slots is overwritten with
a freshly sampled value. The source samples ms uniformly from the range
delay_range_min..=delay_range_max (f64 milliseconds) and stores
Duration::from_micros((ms * 1000.0) as u64); the sample stream abstracts
the random number generator. -/
def init_delay_buffer (samples : Nat → ℚ) : List Micros :=
  (List.range 512).map (fun i => rat_as_u64 (samples i * 1000))

/-- toggle_burst_mode: flips the burst flag, resets the counter, and
returns the new flag value. -/
def DelayProvider.toggle_burst_mode (p : DelayProvider) : Bool × DelayProvider :=
  let q : DelayProvider := { p with burst_mode := !p.burst_mode, burst_counter := 0 }
  (q.burst_mode, q)

/-- update_settings: compares the four incoming parameters with the stored
fields; returns unchanged when all are equal, otherwise stores the new
parameters and reinitializes the whole delay buffer. The source does not
touch current_index, burst_mode or burst_counter on either path. -/
def DelayProvider.update_settings (p : DelayProvider)
    (delay_range_min delay_range_max : ℚ)
    (random_deviation_min random_deviation_max : Int)
    (samples : Nat → ℚ) : DelayProvider :=
  if p.delay_range_min ≠ delay_range_min ∨
     p.delay_range_max ≠ delay_range_max ∨
     p.random_deviation_min ≠ random_deviation_min ∨
     p.random_deviation_max ≠ random_deviation_max then
    { p with
      delay_range_min := delay_range_min,
      delay_range_max := delay_range_max,
      random_deviation_min := random_deviation_min,
      random_deviation_max := random_deviation_max,
      delay_buffer := init_delay_buffer samples }
  else
    p

/-- get_next_delay: burst_draw is the value of random_range(58000..62000)
drawn on the burst path, micro_adjust the value of random_range(-500..500).
Duration saturating_sub is Nat subtraction; saturating_add never saturates
here (buffer entries are at most u64max microseconds while Duration::MAX
is about 2^64 seconds), so it is plain addition. The index advance
(current_index + 1) & 511 is kept literally. -/
def DelayProvider.get_next_delay (p : DelayProvider)
    (burst_draw : Micros) (micro_adjust : Int) : Micros × DelayProvider :=
  if p.burst_mode = true ∧ p.burst_counter < 1 then
    (burst_draw, { p with burst_counter := p.burst_counter + 1 })
  else
    let p1 : DelayProvider :=
      if p.burst_mode = true then { p with burst_counter := 0 } else p
    let base_delay := p1.delay_buffer.getD p1.current_index 0
    let p2 : DelayProvider := { p1 with current_index := (p1.current_index + 1) &&& 511 }
    let final_delay :=
      if micro_adjust < 0 then base_delay - (-micro_adjust).toNat
      else base_delay + micro_adjust.toNat
    (if final_delay < 45000 then 45000 else final_delay, p2)

/-- State after k successive get_next_delay calls, the k-th call consuming
draws k and adjusts k. -/
def DelayProvider.runN (p : DelayProvider) (draws : Nat → Micros)
    (adjusts : Nat → Int) : Nat → DelayProvider
  | 0 => p
  | k + 1 => ((p.runN draws adjusts k).get_next_delay (draws k) (adjusts k)).2

/-- Delay returned by the (k+1)-st get_next_delay call (0-indexed k). -/
def DelayProvider.outN (p : DelayProvider) (draws : Nat → Micros)
    (adjusts : Nat → Int) (k : Nat) : Micros :=
  ((p.runN draws adjusts k).get_next_delay (draws k) (adjusts k)).1

/-- A call from this state takes the early burst branch of get_next_delay
(burst mode on and counter still below 1). -/
def DelayProvider.takes_burst_path (p : DelayProvider) : Bool :=
  p.burst_mode && decide (p.burst_counter < 1)

/-! ## SyncController (src/RAC/src/input/sync_controller.rs) and
ThreadSyncManager (src/RAC/src/input/thread_sync.rs)

Each operation returns its result value, the post state, and the number of
condition-variable notification calls it issued (notify_all counted once). -/

/-- The activation gate: enabled models the AtomicBool, mutex_enabled the
bool behind the Mutex used with the condition variable. -/
structure SyncController where
  enabled : Bool
  mutex_enabled : Bool
deriving DecidableEq

/-- SyncController::new. -/
def SyncController.new : SyncController := ⟨false, false⟩

/-- SyncController::toggle: negates the atomic, stores the new value in
both views, notifies all waiters, returns the new value. -/
def SyncController.toggle (s : SyncController) : Bool × SyncController × Nat :=
  let new_state := !s.enabled
  (new_state, ⟨new_state, new_state⟩, 1)

/-- SyncController::force_enable: early-returns true when the atomic is
already set, without writing or notifying; otherwise sets both views and
notifies all waiters. -/
def SyncController.force_enable (s : SyncController) : Bool × SyncController × Nat :=
  if s.enabled = true then (true, s, 0)
  else (true, ⟨true, true⟩, 1)

/-- SyncController::is_enabled. -/
def SyncController.is_enabled (s : SyncController) : Bool := s.enabled

/-- The trait-based manager in thread_sync.rs, same two boolean views. -/
structure ThreadSyncManager where
  enabled : Bool
  mutex_enabled : Bool
deriving DecidableEq

/-- ThreadSyncManager::toggle: negates the atomic, stores the new value in
both views, calls notify_one. -/
def ThreadSyncManager.toggle (s : ThreadSyncManager) : ThreadSyncManager × Nat :=
  let new_state := !s.enabled
  (⟨new_state, new_state⟩, 1)

/-! ## ClickExecutor (src/RAC/src/input/click_executor.rs) -/

inductive GameMode
  | Combo
  | Default
deriving DecidableEq

inductive MouseButton
  | Left
  | Right
deriving DecidableEq

/-- One PostMessageA button event. -/
inductive ClickMsg
  | button_down (b : MouseButton)
  | button_up (b : MouseButton)
deriving DecidableEq

/-- The game-mode selection in ClickExecutor::new and ClickService: a match
on the settings string recognizing the single literal Combo, every other
string falling through the wildcard arm to Default. -/
def parse_game_mode (s : String) : GameMode :=
  if s = "Combo" then GameMode.Combo else GameMode.Default

/-- State of ClickExecutor (the ThreadController it holds does not carry
state observed by the embedded paths). -/
structure ClickExecutor where
  left_game_mode : GameMode
  right_game_mode : GameMode
  left_max_cps : Nat
  right_max_cps : Nat
  left_click_delay_micros : Nat
  right_click_delay_micros : Nat
  active : Bool
  current_button : MouseButton
deriving DecidableEq

/-- max_cps loaded for the given button in execute_click. -/
def ClickExecutor.button_max_cps (e : ClickExecutor) : MouseButton → Nat
  | MouseButton.Left => e.left_max_cps
  | MouseButton.Right => e.right_max_cps

/-- game mode loaded for the given button in execute_click. -/
def ClickExecutor.button_game_mode (e : ClickExecutor) : MouseButton → GameMode
  | MouseButton.Left => e.left_game_mode
  | MouseButton.Right => e.right_game_mode

/-- The base inter-event delay of execute_click: 1_000_000 when max_cps is
zero, otherwise 1_000_000 / max_cps (u64 division). -/
def cps_base_delay (max_cps : Nat) : Micros :=
  if max_cps = 0 then 1000000 else 1000000 / max_cps

/-- The post-release wait of execute_click: down_time is 1 microsecond; in
Combo mode a jitter from random_range(-500..=500) is saturating-added and
the result clamped from below back to cps_delay - down_time. -/
def adjusted_wait (mode : GameMode) (cps_delay : Micros) (jitter : Int) : Micros :=
  let a := cps_delay - 1
  if mode = GameMode.Combo then
    let withJitter := u64_saturating_add_signed a jitter
    if withJitter < a then a else withJitter
  else a

/-- execute_click: hwnd is the window handle (0 models the null pointer),
jitter the Combo-mode random draw. Returns the bool result, the post
state (the source performs no store on self on any path of this function),
the dispatched events, and the sleep durations requested in order. The
guard returns false immediately with nothing dispatched. -/
def ClickExecutor.execute_click (e : ClickExecutor) (hwnd : Nat) (jitter : Int) :
    Bool × ClickExecutor × List ClickMsg × List Micros :=
  if hwnd = 0 ∨ e.active = false then
    (false, e, [], [])
  else
    let button := e.current_button
    let max_cps := e.button_max_cps button
    let game_mode := e.button_game_mode button
    let cps_delay := cps_base_delay max_cps
    let down_time : Micros := 1
    (true, e,
      [ClickMsg.button_down button, ClickMsg.button_up button],
      [down_time, adjusted_wait game_mode cps_delay jitter])

/-! ## WindowFinder (src/RAC/src/input/window_finder.rs) -/

/-- One top-level window as seen by EnumWindows: its handle (0 models the
null pointer), owning process id, and visibility. -/
structure WindowEntry where
  hwnd : Nat
  pid : Nat
  visible : Bool
deriving DecidableEq

/-- The accumulator threaded through enum_windows_callback. -/
structure FindWindowData where
  pid : Nat
  hwnd : Nat
  window_count : Nat
  require_visibility : Bool
deriving DecidableEq

/-- enum_windows_callback: on a window of the sought pid that satisfies the
visibility requirement, records its handle (later windows overwrite
earlier ones, as the callback keeps enumerating) and bumps the count. -/
def enum_windows_callback (data : FindWindowData) (w : WindowEntry) : FindWindowData :=
  if w.pid = data.pid ∧ (data.require_visibility = false ∨ w.visible = true) then
    { data with hwnd := w.hwnd, window_count := data.window_count + 1 }
  else
    data

/-- find_window_for_pid: folds the callback over the enumeration order and
returns the recorded handle when one was found. -/
def find_window_for_pid (require_visibility : Bool) (windows : List WindowEntry)
    (pid : Nat) : Option Nat :=
  let data := windows.foldl enum_windows_callback
    { pid := pid, hwnd := 0, window_count := 0, require_visibility := require_visibility }
  if data.hwnd ≠ 0 then some data.hwnd else none

/-- Mutable state of WindowFinder observed by find_target_window. -/
structure WindowFinder where
  target_process : String
  last_found_pid : Option Nat
  require_visibility : Bool

/-- The state of the surrounding system: the EnumWindows enumeration and
the refreshed process table as (pid, name) pairs. -/
structure SystemEnv where
  windows : List WindowEntry
  processes : List (Nat × String)

/-- The process-table scan of find_target_window: first process whose
lowercased name equals the lowercased target. -/
def scan_processes (procs : List (Nat × String)) (target : String) : Option Nat :=
  (procs.find? (fun pr => lower_chars pr.2 == lower_chars target)).map (fun pr => pr.1)

/-- The fallback path of find_target_window: scan the process table; on a
hit cache the pid and look its windows up, writing the found handle (or
null on a miss) into the shared TargetHandle. Returns the result, the post
state, and the value written into the shared handle. -/
def WindowFinder.full_scan (wf : WindowFinder) (env : SystemEnv) :
    Option Nat × WindowFinder × Nat :=
  match scan_processes env.processes wf.target_process with
  | some pid =>
    let wf2 : WindowFinder := { wf with last_found_pid := some pid }
    match find_window_for_pid wf2.require_visibility env.windows pid with
    | some hwnd => (some hwnd, wf2, hwnd)
    | none => (none, wf2, 0)
  | none => (none, wf, 0)

/-- find_target_window: when a pid is cached, first try a direct window
lookup for it (fast path), writing and returning on success; otherwise
fall through to the full scan. The source writes the shared TargetHandle
on every path, so the written value is returned unconditionally. -/
def WindowFinder.find_target_window (wf : WindowFinder) (env : SystemEnv) :
    Option Nat × WindowFinder × Nat :=
  match wf.last_found_pid with
  | some pid =>
    match find_window_for_pid wf.require_visibility env.windows pid with
    | some hwnd => (some hwnd, wf, hwnd)
    | none => wf.full_scan env
  | none => wf.full_scan env

/-! ## Helper lemmas -/

/-- The index mask of get_next_delay: anding with 511 is reduction mod 512. -/
theorem land_511_eq_mod (n : Nat) : n &&& 511 = n % 512 := by
  have h : (511 : Nat) = 2 ^ 9 - 1 := by norm_num
  have h2 : (512 : Nat) = 2 ^ 9 := by norm_num
  rw [h, h2]
  apply Nat.eq_of_testBit_eq
  intro i
  rw [Nat.testBit_and, Nat.testBit_mod_two_pow, Nat.testBit_two_pow_sub_one]
  exact Bool.and_comm _ _

/-- With burst mode off, a get_next_delay call only advances the index. -/
theorem get_next_delay_state_of_no_burst (p : DelayProvider)
    (draw : Micros) (adj : Int) (h : p.burst_mode = false) :
    (p.get_next_delay draw adj).2 =
      { p with current_index := (p.current_index + 1) &&& 511 } := by
  unfold DelayProvider.get_next_delay
  simp [h]

/-- With burst mode off, k calls leave everything but the index unchanged
and advance the index by k mod 512 (index assumed in range, as every
reachable state has it). -/
theorem runN_state_of_no_burst (p : DelayProvider)
    (draws : Nat → Micros) (adjusts : Nat → Int)
    (h : p.burst_mode = false) (hidx : p.current_index < 512) :
    ∀ k, p.runN draws adjusts k =
      { p with current_index := (p.current_index + k) % 512 } := by
  intro k
  induction k with
  | zero =>
    simp [DelayProvider.runN]
    cases p with
    | mk buf idx rmin rmax dmin dmax bm bc =>
      simp at hidx ⊢
      omega
  | succ k ih =>
    rw [DelayProvider.runN, ih,
      get_next_delay_state_of_no_burst _ _ _ (by simpa using h)]
    simp [land_511_eq_mod]
    omega

/-- With burst mode held on from a zero counter, the counter after k calls
is k mod 2 and burst mode stays on. -/
theorem runN_burst_counter (p : DelayProvider)
    (draws : Nat → Micros) (adjusts : Nat → Int)
    (hm : p.burst_mode = true) (hc : p.burst_counter = 0) :
    ∀ k, (p.runN draws adjusts k).burst_mode = true ∧
      (p.runN draws adjusts k).burst_counter = k % 2 := by
  intro k
  induction k with
  | zero => simpa [DelayProvider.runN] using ⟨hm, hc⟩
  | succ k ih =>
    obtain ⟨ihm, ihc⟩ := ih
    rw [DelayProvider.runN]
    unfold DelayProvider.get_next_delay
    rcases Nat.mod_two_eq_zero_or_one k with hk | hk
    · rw [hk] at ihc
      simp [ihm, ihc]
      omega
    · rw [hk] at ihc
      simp [ihm, ihc]
      omega

/-! ## Claims -/

/-- C1: for every DelayProvider state and every random draw within the
ranges the source requests (the burst draw comes from
random_range(58000..62000)), the delay returned by get_next_delay is at
least the 45000-microsecond floor. -/
theorem C1_delay_ge_floor (p : DelayProvider) (burst_draw : Micros)
    (micro_adjust : Int) (hb : 58000 ≤ burst_draw) :
    45000 ≤ (p.get_next_delay burst_draw micro_adjust).1 := by
  have hgen : ∀ x : Nat, 45000 ≤ (if x < 45000 then 45000 else x) := by
    intro x
    split <;> omega
  unfold DelayProvider.get_next_delay
  split
  · simpa using le_trans (by norm_num : (45000 : Nat) ≤ 58000) hb
  · dsimp only
    exact hgen _

theorem C1_delay_ge_floor_witness :
    45000 ≤ ((DelayProvider.mk (List.replicate 512 100000) 0 1 2 0 0 true 0
      ).get_next_delay 60000 0).1 :=
  C1_delay_ge_floor _ 60000 0 (by norm_num)

/-- C2 counterexample: a provider whose settings genuinely change (the
stored delay_range_min is 1, the new one is 5) and whose ring index is 3
keeps index 3 after update_settings; the claim says the index is reset
to 0. -/
theorem C2_counterexample :
    ((DelayProvider.mk (List.replicate 512 100000) 3 1 2 0 0 false 0
      ).delay_range_min ≠ 5) ∧
    ((DelayProvider.mk (List.replicate 512 100000) 3 1 2 0 0 false 0
      ).update_settings 5 6 0 0 (fun _ => 5)).current_index ≠ 0 := by
  constructor
  · norm_num
  · show ((DelayProvider.mk (List.replicate 512 100000) 3 1 2 0 0 false 0
      ).update_settings 5 6 0 0 (fun _ => 5)).current_index ≠ 0
    rw [DelayProvider.update_settings]
    norm_num

/-- C2 (amended): with burst mode disabled, the ring index returns to its
starting value after exactly 512 get_next_delay calls and after no smaller
positive number of calls; update_settings with at least one differing
parameter recomputes the entire 512-slot buffer but leaves the ring index
unchanged (it is not reset to 0). -/
theorem C2_ring_period_and_reinit :
    (∀ (p : DelayProvider) (draws : Nat → Micros) (adjusts : Nat → Int),
      p.burst_mode = false → p.current_index < 512 →
      (p.runN draws adjusts 512).current_index = p.current_index ∧
      ∀ k, 0 < k → k < 512 →
        (p.runN draws adjusts k).current_index ≠ p.current_index) ∧
    (∀ (p : DelayProvider) (a b : ℚ) (c d : Int) (samples : Nat → ℚ),
      (p.delay_range_min ≠ a ∨ p.delay_range_max ≠ b ∨
       p.random_deviation_min ≠ c ∨ p.random_deviation_max ≠ d) →
      (p.update_settings a b c d samples).delay_buffer = init_delay_buffer samples ∧
      (p.update_settings a b c d samples).current_index = p.current_index) := by
  constructor
  · intro p draws adjusts hm hidx
    constructor
    · rw [runN_state_of_no_burst p draws adjusts hm hidx 512]
      simp
      omega
    · intro k hk1 hk2
      rw [runN_state_of_no_burst p draws adjusts hm hidx k]
      simp
      omega
  · intro p a b c d samples hne
    rw [DelayProvider.update_settings, if_pos hne]
    simp

theorem C2_ring_period_and_reinit_witness :
    ((DelayProvider.mk (List.replicate 512 100000) 0 1 2 0 0 false 0
      ).runN (fun _ => 60000) (fun _ => 0) 512).current_index = 0 ∧
    ((DelayProvider.mk (List.replicate 512 100000) 3 1 2 0 0 false 0
      ).update_settings 5 6 0 0 (fun _ => 5)).delay_buffer =
      init_delay_buffer (fun _ => 5) := by
  constructor
  · exact (C2_ring_period_and_reinit.1 _ _ _ rfl (by norm_num)).1
  · exact (C2_ring_period_and_reinit.2 _ 5 6 0 0 _ (Or.inl (by norm_num))).1

/-- C3 counterexample: burst mode held enabled and never re-toggled,
starting from a fresh counter; the buffer holds 100000 everywhere and the
burst draw is 60000. The first call returns the burst delay 60000, the
second the normal cadence delay 100000, but the third returns the burst
delay 60000 again: more than one call in the sequence yields the burst
delay, contradicting the claim. -/
theorem C3_counterexample :
    (DelayProvider.mk (List.replicate 512 100000) 0 1 2 0 0 true 0
      ).outN (fun _ => 60000) (fun _ => 0) 0 = 60000 ∧
    (DelayProvider.mk (List.replicate 512 100000) 0 1 2 0 0 true 0
      ).outN (fun _ => 60000) (fun _ => 0) 1 = 100000 ∧
    (DelayProvider.mk (List.replicate 512 100000) 0 1 2 0 0 true 0
      ).outN (fun _ => 60000) (fun _ => 0) 2 = 60000 := by
  refine ⟨?_, ?_, ?_⟩ <;> decide

/-- C3 (amended): with burst mode held enabled (never re-toggled) and the
burst counter fresh from a toggle, the calls alternate: the k-th call
(0-indexed) takes the short burst branch exactly when k is even, and on
those calls the returned delay is the burst draw. Normal cadence is
resumed only on the odd-numbered calls, not permanently. -/
theorem C3_burst_alternates (p : DelayProvider)
    (draws : Nat → Micros) (adjusts : Nat → Int)
    (hm : p.burst_mode = true) (hc : p.burst_counter = 0) (k : Nat) :
    ((p.runN draws adjusts k).takes_burst_path = true ↔ k % 2 = 0) ∧
    (k % 2 = 0 → p.outN draws adjusts k = draws k) := by
  obtain ⟨hbm, hbc⟩ := runN_burst_counter p draws adjusts hm hc k
  constructor
  · rw [DelayProvider.takes_burst_path, hbm, hbc]
    simp
  · intro hk
    rw [DelayProvider.outN]
    unfold DelayProvider.get_next_delay
    rw [hk] at hbc
    simp [hbm, hbc]

theorem C3_burst_alternates_witness :
    ((DelayProvider.mk (List.replicate 512 100000) 0 1 2 0 0 true 0
      ).runN (fun _ => 60000) (fun _ => 0) 2).takes_burst_path = true :=
  ((C3_burst_alternates _ (fun _ => 60000) (fun _ => 0) rfl rfl 2).1).mpr rfl

/-- C4: after a complete toggle the atomic view and the mutex-guarded view
are equal and the condition variable was notified (toggle always changes
the state); force_enable preserves agreement of the two views and notifies
whenever its write changed the state; the thread_sync.rs toggle satisfies
the same agreement and notification property. -/
theorem C4_views_converge_and_notify :
    (∀ s : SyncController,
      (s.toggle).2.1.enabled = (s.toggle).2.1.mutex_enabled ∧
      (s.toggle).2.1.enabled ≠ s.enabled ∧ (s.toggle).2.2 = 1) ∧
    (∀ s : SyncController, s.enabled = s.mutex_enabled →
      (s.force_enable).2.1.enabled = (s.force_enable).2.1.mutex_enabled ∧
      ((s.force_enable).2.1 ≠ s → (s.force_enable).2.2 = 1)) ∧
    (∀ s : ThreadSyncManager,
      (s.toggle).1.enabled = (s.toggle).1.mutex_enabled ∧ (s.toggle).2 = 1) := by
  refine ⟨?_, ?_, ?_⟩
  · rintro ⟨e, m⟩
    cases e <;> simp [SyncController.toggle]
  · rintro ⟨e, m⟩ h
    cases e <;> simp_all [SyncController.force_enable]
  · rintro ⟨e, m⟩
    cases e <;> simp [ThreadSyncManager.toggle]

theorem C4_views_converge_and_notify_witness :
    (SyncController.new.force_enable).2.1.enabled =
      (SyncController.new.force_enable).2.1.mutex_enabled ∧
    ((SyncController.new.force_enable).2.1 ≠ SyncController.new →
      (SyncController.new.force_enable).2.2 = 1) :=
  C4_views_converge_and_notify.2.1 SyncController.new rfl

/-- C5: whenever the handle is null or the active flag is off, execute_click
returns false with the executor state unchanged, no event dispatched and no
sleep requested. -/
theorem C5_guard_rejects (e : ClickExecutor) (hwnd : Nat) (jitter : Int)
    (h : hwnd = 0 ∨ e.active = false) :
    e.execute_click hwnd jitter = (false, e, [], []) := by
  rw [ClickExecutor.execute_click, if_pos h]

theorem C5_guard_rejects_witness :
    (ClickExecutor.mk GameMode.Default GameMode.Default 10 10 100 100 false
      MouseButton.Left).execute_click 5 0 =
    (false, ClickExecutor.mk GameMode.Default GameMode.Default 10 10 100 100 false
      MouseButton.Left, [], []) :=
  C5_guard_rejects _ 5 0 (Or.inr rfl)

/-- C6: force_enable on an already enabled gate returns true, leaves both
boolean views untouched and issues no notification; on a disabled gate it
sets both views to true and notifies once. -/
theorem C6_force_enable_idempotent :
    (∀ s : SyncController, s.enabled = true → s.force_enable = (true, s, 0)) ∧
    (∀ s : SyncController, s.enabled = false →
      s.force_enable = (true, ⟨true, true⟩, 1)) := by
  constructor <;> intro s h <;> simp [SyncController.force_enable, h]

theorem C6_force_enable_idempotent_witness :
    (SyncController.mk true true).force_enable = (true, SyncController.mk true true, 0) :=
  C6_force_enable_idempotent.1 (SyncController.mk true true) rfl

/-- C7: for a process whose pid has not changed between calls (the process
table scan still resolves the target name to the cached pid), the
cached-pid fast path of find_target_window and the full-scan fallback
return the same window handle and write the same value into the shared
TargetHandle. -/
theorem C7_fast_path_agrees_full_scan (wf : WindowFinder) (env : SystemEnv)
    (pid : Nat)
    (h : scan_processes env.processes wf.target_process = some pid) :
    ((({ wf with last_found_pid := some pid } : WindowFinder
      ).find_target_window env).1 =
     (({ wf with last_found_pid := none } : WindowFinder
      ).find_target_window env).1) ∧
    ((({ wf with last_found_pid := some pid } : WindowFinder
      ).find_target_window env).2.2 =
     (({ wf with last_found_pid := none } : WindowFinder
      ).find_target_window env).2.2) := by
  cases hfw : find_window_for_pid wf.require_visibility env.windows pid with
  | some hwnd =>
    simp [WindowFinder.find_target_window, WindowFinder.full_scan, h, hfw]
  | none =>
    simp [WindowFinder.find_target_window, WindowFinder.full_scan, h, hfw]

theorem C7_fast_path_agrees_full_scan_witness :
    ((({ WindowFinder.mk "Game.EXE" none true with last_found_pid := some 42 }
      : WindowFinder).find_target_window
        (SystemEnv.mk [WindowEntry.mk 7 42 true] [(42, "game.exe")])).1 =
     (({ WindowFinder.mk "Game.EXE" none true with last_found_pid := none }
      : WindowFinder).find_target_window
        (SystemEnv.mk [WindowEntry.mk 7 42 true] [(42, "game.exe")])).1) ∧
    ((({ WindowFinder.mk "Game.EXE" none true with last_found_pid := some 42 }
      : WindowFinder).find_target_window
        (SystemEnv.mk [WindowEntry.mk 7 42 true] [(42, "game.exe")])).2.2 =
     (({ WindowFinder.mk "Game.EXE" none true with last_found_pid := none }
      : WindowFinder).find_target_window
        (SystemEnv.mk [WindowEntry.mk 7 42 true] [(42, "game.exe")])).2.2) :=
  C7_fast_path_agrees_full_scan (WindowFinder.mk "Game.EXE" none true)
    (SystemEnv.mk [WindowEntry.mk 7 42 true] [(42, "game.exe")]) 42 (by decide)

/-- C8: the jitter-mode/game-mode selection recognizes exactly the literal
Combo; every other string, the empty string included, is mapped to the
Default mode, and the mapping is total (no error path). -/
theorem C8_mode_fallback (s : String) :
    (parse_game_mode s = GameMode.Combo ↔ s = "Combo") ∧
    (s ≠ "Combo" → parse_game_mode s = GameMode.Default) := by
  by_cases h : s = "Combo" <;> simp [parse_game_mode, h]

theorem C8_mode_fallback_witness :
    parse_game_mode "" = GameMode.Default :=
  (C8_mode_fallback "").2 (by decide)

/-- C9: update_settings with all four parameters equal to the stored values
returns the provider completely unchanged (buffer, index, burst flag,
counter, and all range and deviation fields); with at least one differing
parameter the whole buffer is recomputed from fresh samples. -/
theorem C9_update_settings_frame :
    (∀ (p : DelayProvider) (samples : Nat → ℚ),
      p.update_settings p.delay_range_min p.delay_range_max
        p.random_deviation_min p.random_deviation_max samples = p) ∧
    (∀ (p : DelayProvider) (a b : ℚ) (c d : Int) (samples : Nat → ℚ),
      (p.delay_range_min ≠ a ∨ p.delay_range_max ≠ b ∨
       p.random_deviation_min ≠ c ∨ p.random_deviation_max ≠ d) →
      (p.update_settings a b c d samples).delay_buffer = init_delay_buffer samples) := by
  constructor
  · intro p samples
    simp [DelayProvider.update_settings]
  · intro p a b c d samples hne
    rw [DelayProvider.update_settings, if_pos hne]

theorem C9_update_settings_frame_witness :
    ((DelayProvider.mk (List.replicate 512 100000) 3 1 2 0 0 false 0
      ).update_settings 1 2 0 0 (fun _ => 1) =
      DelayProvider.mk (List.replicate 512 100000) 3 1 2 0 0 false 0) ∧
    ((DelayProvider.mk (List.replicate 512 100000) 3 1 2 0 0 false 0
      ).update_settings 7 8 0 0 (fun _ => 7)).delay_buffer =
      init_delay_buffer (fun _ => 7) :=
  ⟨C9_update_settings_frame.1 _ _,
   C9_update_settings_frame.2 _ 7 8 0 0 _ (Or.inl (by norm_num))⟩

/-- C10: with the configured max rate zero, execute_click does not divide:
the base inter-event delay falls back to 1,000,000 microseconds, and the
post-release wait the call requests is computed from that base. -/
theorem C10_zero_cps_full_second (e : ClickExecutor) (hwnd : Nat) (jitter : Int)
    (h1 : hwnd ≠ 0) (h2 : e.active = true)
    (h3 : e.button_max_cps e.current_button = 0) :
    cps_base_delay (e.button_max_cps e.current_button) = 1000000 ∧
    (e.execute_click hwnd jitter).2.2.2 =
      [1, adjusted_wait (e.button_game_mode e.current_button) 1000000 jitter] := by
  have hcps : cps_base_delay (e.button_max_cps e.current_button) = 1000000 := by
    rw [h3, cps_base_delay]
    simp
  refine ⟨hcps, ?_⟩
  rw [ClickExecutor.execute_click,
    if_neg (by simp [h1, h2] : ¬(hwnd = 0 ∨ e.active = false))]
  dsimp only
  rw [hcps]

theorem C10_zero_cps_full_second_witness :
    cps_base_delay ((ClickExecutor.mk GameMode.Default GameMode.Default 0 0 100 100
      true MouseButton.Left).button_max_cps MouseButton.Left) = 1000000 ∧
    ((ClickExecutor.mk GameMode.Default GameMode.Default 0 0 100 100 true
      MouseButton.Left).execute_click 7 0).2.2.2 =
      [1, adjusted_wait GameMode.Default 1000000 0] :=
  C10_zero_cps_full_second _ 7 0 (by norm_num) rfl rfl
